import Mathlib

/-!
Shallow embedding of the credential-store core of `main_program.py`
(class `PasswordManager`): the in-memory `passwords` dictionary, the
`settings` dictionary, and the operations `load_passwords`,
`load_settings`, `save_to_json`, `save_settings`, `save_password`,
`update_password`, `retrieve_password`, `delete_password`.

Modelling conventions:
- Python `dict` is embedded as an association list `List (String × α)`
  whose well-formedness invariant is key-uniqueness (`dictKeys m |>.Nodup`);
  `d[k] = v` is `dictInsert` (replace the first binding in place, else
  append, matching dict insertion order), `d.get k default` is
  `dictGet`, `d.update other` is `dictUpdate`, `del d[k]` is `dictDel`
  (`none` embeds the raised `KeyError`).
- File I/O is embedded by an explicit file state (`FileState`: missing,
  malformed, or parsed content) threaded through the operations, and a
  boolean `writeOk` standing for whether the `open`/`json.dump` in
  `save_to_json` succeeds or raises. Because the source opens the file
  with mode `'w'`, which truncates it before `json.dump` runs, a failed
  write leaves the file in an unspecified state — the prior content if
  `open` itself raised, a truncated or partially written file if
  `json.dump` did — injected as an extra parameter `failFile`.
- Python `str.strip()` is `pyStrip` (drop whitespace on both ends);
  Python `int(text)` is `parsePyInt` (optional surrounding whitespace,
  optional sign, decimal digits; `none` embeds the raised `ValueError`).
- JSON scalar values appearing in the settings file are `PyVal`.
-/

namespace PasswordManager

/-- A JSON scalar value as held in the `settings` dictionary. -/
inductive PyVal where
  | pyInt (n : Int)
  | pyBool (b : Bool)
  | pyStr (s : String)
deriving DecidableEq, Repr

/-- State of a backing file as seen by `json.load`: absent, present but
unparseable (raises `JSONDecodeError`), or parseable with content `a`. -/
inductive FileState (α : Type) where
  | missing
  | malformed
  | content (a : α)
deriving DecidableEq, Repr

/-- The keys of a Python-dict association list. -/
def dictKeys {α : Type} (m : List (String × α)) : List String :=
  m.map Prod.fst

/-- Lookup in a Python-dict association list (`d[k]` on the reading side,
`none` when the key is absent). -/
def dictFind {α : Type} (k : String) : List (String × α) → Option α
  | [] => none
  | (k', v) :: rest => if k' = k then some v else dictFind k rest

/-- Python `d.get(k, default)`. -/
def dictGet {α : Type} (k : String) (default : α) (m : List (String × α)) : α :=
  (dictFind k m).getD default

/-- Python `d[k] = v`: replace the first binding of `k` in place, else
append the new binding at the end (dict insertion order). -/
def dictInsert {α : Type} (k : String) (v : α) : List (String × α) → List (String × α)
  | [] => [(k, v)]
  | (k', v') :: rest => if k' = k then (k, v) :: rest else (k', v') :: dictInsert k v rest

/-- Python `del d[k]`: remove the binding of `k`; `none` embeds the
`KeyError` raised when `k` is absent. -/
def dictDel {α : Type} (k : String) : List (String × α) → Option (List (String × α))
  | [] => none
  | (k', v) :: rest =>
      if k' = k then some rest
      else Option.map (fun r => (k', v) :: r) (dictDel k rest)

/-- Python `d.update(other)`: insert the bindings of `other` into `d`
in order, overwriting existing keys and adding new ones. -/
def dictUpdate {α : Type} (d : List (String × α)) : List (String × α) → List (String × α)
  | [] => d
  | (k, v) :: rest => dictUpdate (dictInsert k v d) rest

/-- Python `str.strip()`: drop whitespace from both ends. -/
def pyStrip (s : String) : String :=
  ⟨((s.data.dropWhile Char.isWhitespace).reverse.dropWhile Char.isWhitespace).reverse⟩

/-- Value of a list of decimal digit characters. -/
def digitsToNat (l : List Char) : Nat :=
  l.foldl (fun a c => 10 * a + (c.toNat - 48)) 0

/-- Python `int(text)` on a decimal string: optional surrounding
whitespace, optional sign, one or more digits; `none` embeds the raised
`ValueError`. (Underscore digit grouping and non-ASCII digits are not
modelled.) -/
def parsePyInt (s : String) : Option Int :=
  match (pyStrip s).data with
  | [] => none
  | '-' :: ds =>
      if ds ≠ [] ∧ ds.all Char.isDigit then some (-(digitsToNat ds : Int)) else none
  | '+' :: ds =>
      if ds ≠ [] ∧ ds.all Char.isDigit then some (digitsToNat ds : Int) else none
  | ds =>
      if ds.all Char.isDigit then some (digitsToNat ds : Int) else none

theorem dictFind_dictInsert_self {α : Type} (k : String) (v : α) (m : List (String × α)) :
    dictFind k (dictInsert k v m) = some v := by
  induction m with
  | nil => simp [dictInsert, dictFind]
  | cons p rest ih =>
      obtain ⟨k', v'⟩ := p
      by_cases h : k' = k
      · simp [dictInsert, dictFind, h]
      · simp [dictInsert, dictFind, h, ih]

theorem dictFind_dictInsert_ne {α : Type} (k k' : String) (v : α) (m : List (String × α))
    (h : k' ≠ k) : dictFind k' (dictInsert k v m) = dictFind k' m := by
  have hk : ¬ k = k' := fun hh => h hh.symm
  induction m with
  | nil => simp [dictInsert, dictFind, hk]
  | cons p rest ih =>
      obtain ⟨k₀, v₀⟩ := p
      by_cases h₀ : k₀ = k
      · subst h₀
        simp [dictInsert, dictFind, hk]
      · simp only [dictInsert, if_neg h₀, dictFind]
        by_cases h₁ : k₀ = k'
        · simp [h₁]
        · simp [h₁, ih]

theorem dictFind_eq_none_of_not_mem {α : Type} (k : String) (m : List (String × α))
    (h : k ∉ dictKeys m) : dictFind k m = none := by
  induction m with
  | nil => simp [dictFind]
  | cons p rest ih =>
      obtain ⟨k', v'⟩ := p
      simp only [dictKeys, List.map_cons, List.mem_cons] at h
      push_neg at h
      have hk : ¬ k' = k := fun hh => h.1 hh.symm
      simp only [dictFind, if_neg hk]
      exact ih (by simpa [dictKeys] using h.2)

theorem mem_dictKeys_dictInsert {α : Type} (x k : String) (v : α) (m : List (String × α)) :
    x ∈ dictKeys (dictInsert k v m) ↔ x = k ∨ x ∈ dictKeys m := by
  induction m with
  | nil => simp [dictInsert, dictKeys]
  | cons p rest ih =>
      obtain ⟨k', v'⟩ := p
      by_cases h : k' = k
      · subst h
        simp [dictInsert, dictKeys]
      · simp only [dictInsert, if_neg h, dictKeys, List.map_cons, List.mem_cons]
        rw [dictKeys] at ih
        rw [ih]
        tauto

theorem dictKeys_nodup_dictInsert {α : Type} (k : String) (v : α) (m : List (String × α))
    (h : (dictKeys m).Nodup) : (dictKeys (dictInsert k v m)).Nodup := by
  induction m with
  | nil => simp [dictInsert, dictKeys]
  | cons p rest ih =>
      obtain ⟨k', v'⟩ := p
      simp only [dictKeys, List.map_cons, List.nodup_cons] at h
      by_cases h₀ : k' = k
      · subst h₀
        simpa [dictInsert, dictKeys, List.nodup_cons] using h
      · simp only [dictInsert, if_neg h₀, dictKeys, List.map_cons, List.nodup_cons]
        constructor
        · intro hmem
          rcases (mem_dictKeys_dictInsert k' k v rest).mp hmem with h₁ | h₁
          · exact h₀ h₁
          · exact h.1 (by simpa [dictKeys] using h₁)
        · exact ih h.2

theorem dictDel_eq_none_of_find_none {α : Type} (k : String) (m : List (String × α))
    (h : dictFind k m = none) : dictDel k m = none := by
  induction m with
  | nil => simp [dictDel]
  | cons p rest ih =>
      obtain ⟨k', v'⟩ := p
      by_cases h₀ : k' = k
      · simp [dictFind, h₀] at h
      · simp only [dictFind, if_neg h₀] at h
        simp [dictDel, h₀, ih h]

theorem dictFind_dictUpdate {α : Type} (other d : List (String × α))
    (h : (dictKeys other).Nodup) (k : String) :
    dictFind k (dictUpdate d other) =
      match dictFind k other with
      | some v => some v
      | none => dictFind k d := by
  induction other generalizing d with
  | nil => simp [dictUpdate, dictFind]
  | cons p rest ih =>
      obtain ⟨k₀, v₀⟩ := p
      simp only [dictKeys, List.map_cons, List.nodup_cons] at h
      simp only [dictUpdate, dictFind]
      rw [ih _ h.2]
      by_cases h₀ : k₀ = k
      · subst h₀
        have : dictFind k₀ rest = none :=
          dictFind_eq_none_of_not_mem k₀ rest (by simpa [dictKeys] using h.1)
        simp [this, dictFind_dictInsert_self]
      · have hk : k ≠ k₀ := fun hh => h₀ hh.symm
        simp only [if_neg h₀]
        cases hr : dictFind k rest with
        | some v => simp
        | none => simp [dictFind_dictInsert_ne _ _ _ _ hk]

/-- The in-memory `self.passwords` dictionary: name to secret. -/
abbrev PwMap : Type := List (String × String)

/-- The in-memory `self.settings` dictionary: key to JSON scalar. -/
abbrev SettingsMap : Type := List (String × PyVal)

/-- Outcome of a password operation: which control path the handler took.
`inputError` is the "Input Error" warning dialog (empty field),
`keyError` is the uncaught `KeyError` of `del self.passwords[name]`,
`saved` means `save_to_json` returned `True`,
`saveFailed` means `save_to_json` returned `False` (error dialog),
`cancelled` means the user answered No to the delete confirmation. -/
inductive PwOpResult where
  | inputError
  | keyError
  | saved
  | saveFailed
  | cancelled
deriving DecidableEq, Repr

/-- Result of a password operation together with the post-state of the
in-memory `passwords` dictionary and of the passwords file. -/
structure StoreOut where
  result : PwOpResult
  passwords : PwMap
  file : FileState PwMap
deriving DecidableEq, Repr

/-- Outcome of `save_settings`: `invalidInput` is the "Invalid Input"
warning dialog (bad bounds or unparseable text), `saved` / `saveFailed`
mirror the `save_to_json` return value. -/
inductive SettingsResult where
  | invalidInput
  | saved
  | saveFailed
deriving DecidableEq, Repr

/-- Result of `save_settings` together with the post-state of the
in-memory `settings` dictionary and of the settings file. -/
structure SettingsOut where
  result : SettingsResult
  settings : SettingsMap
  file : FileState SettingsMap
deriving DecidableEq, Repr

/-- `save_to_json(data, filename)`: on a successful write (`writeOk`)
the file now holds `data` and the method returns `True`; on an I/O
failure it shows an error dialog and returns `False`. The source opens
the file with mode `'w'`, which truncates it before `json.dump` runs,
so a failed write gives no guarantee about the file: it ends in the
unspecified state `failFile` (the prior content when `open` itself
raised, a truncated or partially written file when `json.dump` did). -/
def save_to_json {α : Type} (data : α) (writeOk : Bool) (failFile : FileState α) :
    Bool × FileState α :=
  if writeOk then (true, FileState.content data) else (false, failFile)

/-- `load_passwords`: start from `{}`; a missing file or a
`JSONDecodeError` leaves the empty dictionary; otherwise the parsed
content is taken wholesale. -/
def load_passwords : FileState PwMap → PwMap
  | FileState.missing => []
  | FileState.malformed => []
  | FileState.content m => m

/-- The `self.default_settings` dictionary. -/
def default_settings : SettingsMap :=
  [("min_length", PyVal.pyInt 8),
   ("max_length", PyVal.pyInt 20),
   ("require_special", PyVal.pyBool true),
   ("require_capital", PyVal.pyBool true),
   ("require_number", PyVal.pyBool true)]

/-- `load_settings`: start from a copy of the defaults; a missing file
or a `JSONDecodeError` leaves the defaults; otherwise
`self.settings.update(saved_settings)` merges the parsed content in. -/
def load_settings : FileState SettingsMap → SettingsMap
  | FileState.missing => default_settings
  | FileState.malformed => default_settings
  | FileState.content saved => dictUpdate default_settings saved

/-- `save_password` (the add handler): strip both fields, reject if
either is empty, otherwise assign `self.passwords[program] = password`
and persist the whole dictionary with `save_to_json`. -/
def save_password (programText passwordText : String) (passwords : PwMap)
    (file : FileState PwMap) (writeOk : Bool) (failFile : FileState PwMap) : StoreOut :=
  let program := pyStrip programText
  let password := pyStrip passwordText
  if program = "" ∨ password = "" then ⟨PwOpResult.inputError, passwords, file⟩
  else
    let passwords' := dictInsert program password passwords
    let saved := save_to_json passwords' writeOk failFile
    if saved.1 then ⟨PwOpResult.saved, passwords', saved.2⟩
    else ⟨PwOpResult.saveFailed, passwords', saved.2⟩

/-- `update_password`: strip both fields, reject only an empty password
(the program field is read-only and never checked for presence in the
dictionary), then assign and persist exactly like `save_password`. -/
def update_password (programText passwordText : String) (passwords : PwMap)
    (file : FileState PwMap) (writeOk : Bool) (failFile : FileState PwMap) : StoreOut :=
  let program := pyStrip programText
  let password := pyStrip passwordText
  if password = "" then ⟨PwOpResult.inputError, passwords, file⟩
  else
    let passwords' := dictInsert program password passwords
    let saved := save_to_json passwords' writeOk failFile
    if saved.1 then ⟨PwOpResult.saved, passwords', saved.2⟩
    else ⟨PwOpResult.saveFailed, passwords', saved.2⟩

/-- `retrieve_password`: `self.passwords.get(program_name, '')`, shown
in an information dialog; an absent name yields the empty string. -/
def retrieve_password (program_name : String) (passwords : PwMap) : String :=
  dictGet program_name "" passwords

/-- `delete_password`: after a Yes/No confirmation (`reply`), execute
`del self.passwords[program_name]` (raising `KeyError` when absent) and
persist the remaining dictionary with `save_to_json`. -/
def delete_password (program_name : String) (passwords : PwMap)
    (file : FileState PwMap) (reply : Bool) (writeOk : Bool)
    (failFile : FileState PwMap) : StoreOut :=
  if reply then
    match dictDel program_name passwords with
    | none => ⟨PwOpResult.keyError, passwords, file⟩
    | some passwords' =>
        let saved := save_to_json passwords' writeOk failFile
        if saved.1 then ⟨PwOpResult.saved, passwords', saved.2⟩
        else ⟨PwOpResult.saveFailed, passwords', saved.2⟩
  else ⟨PwOpResult.cancelled, passwords, file⟩

/-- `save_settings`: parse both length fields with `int(...)` (a
`ValueError` is the "Invalid Input" dialog), reject `min_length < 1` or
`max_length < min_length`, otherwise assign
`self.settings['min_length']` and `self.settings['max_length']` and
persist the whole settings dictionary with `save_to_json`. -/
def save_settings (minText maxText : String) (settings : SettingsMap)
    (file : FileState SettingsMap) (writeOk : Bool)
    (failFile : FileState SettingsMap) : SettingsOut :=
  match parsePyInt minText, parsePyInt maxText with
  | some min_length, some max_length =>
      if min_length < 1 ∨ max_length < min_length then
        ⟨SettingsResult.invalidInput, settings, file⟩
      else
        let settings' :=
          dictInsert "max_length" (PyVal.pyInt max_length)
            (dictInsert "min_length" (PyVal.pyInt min_length) settings)
        let saved := save_to_json settings' writeOk failFile
        if saved.1 then ⟨SettingsResult.saved, settings', saved.2⟩
        else ⟨SettingsResult.saveFailed, settings', saved.2⟩
  | _, _ => ⟨SettingsResult.invalidInput, settings, file⟩

/-- Modelled from the spec: the ValidationEngine of §4.2 (policy record
with length bounds and required character classes) is described by the
specification but has no counterpart in the source, whose add/update
paths check only non-emptiness. -/
structure PolicyConfig where
  min_length : Nat
  max_length : Nat
  require_special : Bool
  require_capital : Bool
  require_number : Bool
deriving DecidableEq, Repr

/-- Modelled from the spec: the violation kinds reported by the
ValidationEngine (§4.2). -/
inductive ViolationKind where
  | tooShort
  | tooLong
  | missingSpecial
  | missingCapital
  | missingNumber
deriving DecidableEq, Repr

/-- Modelled from the spec: `validate(secret, policy)` of §4.2 — length
must lie within the configured bounds, and each required character
class must be present; all violations accumulate. -/
def validate (secret : String) (policy : PolicyConfig) : List ViolationKind :=
  (if secret.data.length < policy.min_length then [ViolationKind.tooShort] else []) ++
  (if policy.max_length < secret.data.length then [ViolationKind.tooLong] else []) ++
  (if policy.require_special && !(secret.data.any fun c => !c.isAlphanum) then
    [ViolationKind.missingSpecial] else []) ++
  (if policy.require_capital && !(secret.data.any Char.isUpper) then
    [ViolationKind.missingCapital] else []) ++
  (if policy.require_number && !(secret.data.any Char.isDigit) then
    [ViolationKind.missingNumber] else [])

/-- Modelled from the spec: the default policy of §3. -/
def defaultPolicy : PolicyConfig :=
  { min_length := 8, max_length := 20, require_special := true,
    require_capital := true, require_number := true }

theorem save_password_true_eq (n s : String) (pw : PwMap) (file failFile : FileState PwMap)
    (h1 : pyStrip n ≠ "") (h2 : pyStrip s ≠ "") :
    save_password n s pw file true failFile =
      ⟨PwOpResult.saved, dictInsert (pyStrip n) (pyStrip s) pw,
       FileState.content (dictInsert (pyStrip n) (pyStrip s) pw)⟩ := by
  simp [save_password, save_to_json, h1, h2]

theorem save_password_false_eq (n s : String) (pw : PwMap) (file failFile : FileState PwMap)
    (h1 : pyStrip n ≠ "") (h2 : pyStrip s ≠ "") :
    save_password n s pw file false failFile =
      ⟨PwOpResult.saveFailed, dictInsert (pyStrip n) (pyStrip s) pw, failFile⟩ := by
  simp [save_password, save_to_json, h1, h2]

theorem update_password_true_eq (n s : String) (pw : PwMap) (file failFile : FileState PwMap)
    (h2 : pyStrip s ≠ "") :
    update_password n s pw file true failFile =
      ⟨PwOpResult.saved, dictInsert (pyStrip n) (pyStrip s) pw,
       FileState.content (dictInsert (pyStrip n) (pyStrip s) pw)⟩ := by
  simp [update_password, save_to_json, h2]

theorem update_password_false_eq (n s : String) (pw : PwMap) (file failFile : FileState PwMap)
    (h2 : pyStrip s ≠ "") :
    update_password n s pw file false failFile =
      ⟨PwOpResult.saveFailed, dictInsert (pyStrip n) (pyStrip s) pw, failFile⟩ := by
  simp [update_password, save_to_json, h2]

theorem delete_password_false_eq (n : String) (pw pw' : PwMap)
    (file failFile : FileState PwMap) (hD : dictDel n pw = some pw') :
    delete_password n pw file true false failFile =
      ⟨PwOpResult.saveFailed, pw', failFile⟩ := by
  simp [delete_password, hD, save_to_json]

theorem delete_password_keyError_eq (n : String) (pw : PwMap) (file : FileState PwMap)
    (writeOk : Bool) (failFile : FileState PwMap) (hD : dictFind n pw = none) :
    delete_password n pw file true writeOk failFile = ⟨PwOpResult.keyError, pw, file⟩ := by
  simp [delete_password, dictDel_eq_none_of_find_none n pw hD]

theorem dictFind_save_settings_other (minText maxText : String) (settings : SettingsMap)
    (file : FileState SettingsMap) (writeOk : Bool) (failFile : FileState SettingsMap)
    (k : String) (hk1 : k ≠ "min_length") (hk2 : k ≠ "max_length") :
    dictFind k (save_settings minText maxText settings file writeOk failFile).settings =
      dictFind k settings := by
  cases h1 : parsePyInt minText with
  | none => simp [save_settings, h1]
  | some mi =>
      cases h2 : parsePyInt maxText with
      | none => simp [save_settings, h1, h2]
      | some ma =>
          by_cases hb : mi < 1 ∨ ma < mi
          · simp [save_settings, h1, h2, hb]
          · cases writeOk <;>
              simp [save_settings, h1, h2, hb, save_to_json,
                dictFind_dictInsert_ne _ _ _ _ hk2, dictFind_dictInsert_ne _ _ _ _ hk1]

/-- C9: `load_passwords` yields an empty store, not an error, both when
the credential file is missing and when it is malformed; the operation
is total (no error outcome exists to propagate). -/
theorem load_passwords_soft_failure :
    load_passwords FileState.missing = [] ∧ load_passwords FileState.malformed = [] :=
  ⟨rfl, rfl⟩

/-- C10: every call to `save_settings`, whatever its inputs and
outcome, leaves the `require_special`, `require_capital` and
`require_number` entries of the in-memory settings dictionary
unchanged. -/
theorem save_settings_preserves_flags (minText maxText : String) (settings : SettingsMap)
    (file : FileState SettingsMap) (writeOk : Bool) (failFile : FileState SettingsMap) :
    dictFind "require_special"
      (save_settings minText maxText settings file writeOk failFile).settings =
      dictFind "require_special" settings ∧
    dictFind "require_capital"
      (save_settings minText maxText settings file writeOk failFile).settings =
      dictFind "require_capital" settings ∧
    dictFind "require_number"
      (save_settings minText maxText settings file writeOk failFile).settings =
      dictFind "require_number" settings :=
  ⟨dictFind_save_settings_other _ _ _ _ _ _ _ (by decide) (by decide),
   dictFind_save_settings_other _ _ _ _ _ _ _ (by decide) (by decide),
   dictFind_save_settings_other _ _ _ _ _ _ _ (by decide) (by decide)⟩

/-- C7: `save_settings` reports `InvalidInput` exactly when one of the
two texts fails to parse as an integer or the parsed bounds satisfy
`min_length < 1` or `max_length < min_length`; in each of these cases
neither the in-memory settings nor the settings file is modified. -/
theorem save_settings_invalidInput_iff (minText maxText : String) (settings : SettingsMap)
    (file : FileState SettingsMap) (writeOk : Bool) (failFile : FileState SettingsMap) :
    ((save_settings minText maxText settings file writeOk failFile).result =
        SettingsResult.invalidInput ↔
      parsePyInt minText = none ∨ parsePyInt maxText = none ∨
      (∃ mi ma : Int, parsePyInt minText = some mi ∧ parsePyInt maxText = some ma ∧
        (mi < 1 ∨ ma < mi))) ∧
    ((save_settings minText maxText settings file writeOk failFile).result =
        SettingsResult.invalidInput →
      (save_settings minText maxText settings file writeOk failFile).settings = settings ∧
      (save_settings minText maxText settings file writeOk failFile).file = file) := by
  cases h1 : parsePyInt minText with
  | none => simp [save_settings, h1]
  | some mi =>
      cases h2 : parsePyInt maxText with
      | none => simp [save_settings, h1, h2]
      | some ma =>
          by_cases hb : mi < 1 ∨ ma < mi
          · simp [save_settings, h1, h2, hb]
          · cases writeOk <;> simp [save_settings, h1, h2, hb, save_to_json]

/-- Witness for C7: `save_settings("0", "10", …)` is rejected as
`InvalidInput` and the in-memory settings are untouched. -/
theorem save_settings_invalidInput_iff_witness :
    (save_settings "0" "10" default_settings FileState.missing true
      FileState.missing).result = SettingsResult.invalidInput ∧
    (save_settings "0" "10" default_settings FileState.missing true
      FileState.missing).settings = default_settings := by
  have h := save_settings_invalidInput_iff "0" "10" default_settings FileState.missing true
    FileState.missing
  have hres : (save_settings "0" "10" default_settings FileState.missing true
      FileState.missing).result = SettingsResult.invalidInput := by decide
  exact ⟨hres, (h.2 hres).1⟩

/-- C1 counterexample: an add whose persistence write fails
(`writeOk = false`) reports the failure, yet the in-memory mapping
still contains the new entry — the mutation is not rolled back. -/
theorem no_rollback_counterexample :
    (save_password "svc" "x9" [] FileState.missing false FileState.malformed).result =
      PwOpResult.saveFailed ∧
    dictFind "svc" (save_password "svc" "x9" [] FileState.missing false
      FileState.malformed).passwords = some "x9" := by
  decide

/-- C1 (amended): when the persistence write fails, each mutating
operation keeps its in-memory mutation — add and update keep the new
binding, delete keeps the removal — and the failure is reported
(`save_to_json` returned `False`, shown as an error dialog). No
rollback occurs; nothing is guaranteed about the persisted file, which
the failed write may have truncated (`failFile` is arbitrary). -/
theorem mutation_kept_on_save_failure
    (nameA secretA : String) (pwA : PwMap) (fileA failA : FileState PwMap)
    (hA1 : pyStrip nameA ≠ "") (hA2 : pyStrip secretA ≠ "")
    (nameU secretU : String) (pwU : PwMap) (fileU failU : FileState PwMap)
    (hU : pyStrip secretU ≠ "")
    (nameD : String) (pwD pwD' : PwMap) (fileD failD : FileState PwMap)
    (hD : dictDel nameD pwD = some pwD') :
    (save_password nameA secretA pwA fileA false failA).result = PwOpResult.saveFailed ∧
    (save_password nameA secretA pwA fileA false failA).passwords =
      dictInsert (pyStrip nameA) (pyStrip secretA) pwA ∧
    (update_password nameU secretU pwU fileU false failU).result = PwOpResult.saveFailed ∧
    (update_password nameU secretU pwU fileU false failU).passwords =
      dictInsert (pyStrip nameU) (pyStrip secretU) pwU ∧
    (delete_password nameD pwD fileD true false failD).result = PwOpResult.saveFailed ∧
    (delete_password nameD pwD fileD true false failD).passwords = pwD' := by
  rw [save_password_false_eq nameA secretA pwA fileA failA hA1 hA2,
    update_password_false_eq nameU secretU pwU fileU failU hU,
    delete_password_false_eq nameD pwD pwD' fileD failD hD]
  exact ⟨rfl, rfl, rfl, rfl, rfl, rfl⟩

/-- Witness for the amended C1 at concrete inputs. -/
theorem mutation_kept_on_save_failure_witness :
    (save_password "a" "x" [] FileState.missing false FileState.malformed).result =
      PwOpResult.saveFailed ∧
    (save_password "a" "x" [] FileState.missing false FileState.malformed).passwords =
      [("a", "x")] ∧
    (update_password "b" "y" [] FileState.missing false FileState.malformed).result =
      PwOpResult.saveFailed ∧
    (update_password "b" "y" [] FileState.missing false FileState.malformed).passwords =
      [("b", "y")] ∧
    (delete_password "k" [("k", "v")] FileState.missing true false
      FileState.malformed).result = PwOpResult.saveFailed ∧
    (delete_password "k" [("k", "v")] FileState.missing true false
      FileState.malformed).passwords = ([] : PwMap) := by
  have h := mutation_kept_on_save_failure "a" "x" [] FileState.missing FileState.malformed
    (by decide) (by decide) "b" "y" [] FileState.missing FileState.malformed (by decide)
    "k" [("k", "v")] [] FileState.missing FileState.malformed (by decide)
  exact h

/-- C2 counterexample: under the default policy the secret `"x"` is in
violation (too short, and missing every required character class), yet
add succeeds and inserts it — no `PolicyViolation` outcome exists. -/
theorem policy_not_enforced_counterexample :
    validate "x" defaultPolicy ≠ [] ∧
    (save_password "svc" "x" [] FileState.missing true FileState.missing).result =
      PwOpResult.saved ∧
    dictFind "svc" (save_password "svc" "x" [] FileState.missing true
      FileState.missing).passwords = some "x" := by
  decide

/-- C2 (amended): `save_password` performs no policy check — for every
configured policy and every secret violating it, as long as both
trimmed fields are non-empty and the write succeeds, add reports
success and inserts the entry. -/
theorem save_password_ignores_policy (name secret : String) (pw : PwMap)
    (file failFile : FileState PwMap) (policy : PolicyConfig)
    (h1 : pyStrip name ≠ "") (h2 : pyStrip secret ≠ "")
    (h3 : validate secret policy ≠ []) :
    (save_password name secret pw file true failFile).result = PwOpResult.saved ∧
    dictFind (pyStrip name) (save_password name secret pw file true failFile).passwords =
      some (pyStrip secret) := by
  rw [save_password_true_eq name secret pw file failFile h1 h2]
  exact ⟨rfl, dictFind_dictInsert_self _ _ _⟩

/-- Witness for the amended C2 at concrete inputs. -/
theorem save_password_ignores_policy_witness :
    (save_password "mail" "pw" [] FileState.missing true FileState.missing).result =
      PwOpResult.saved ∧
    dictFind "mail" (save_password "mail" "pw" [] FileState.missing true
      FileState.missing).passwords = some "pw" := by
  have h := save_password_ignores_policy "mail" "pw" [] FileState.missing FileState.missing
    defaultPolicy (by decide) (by decide) (by decide)
  exact h

/-- C3 counterexample: for an absent name, get returns the empty string
(indistinguishable from an entry whose secret is empty) and update
inserts the entry with success — neither returns a `NotFound`. -/
theorem missing_name_counterexample :
    retrieve_password "ghost" [] = retrieve_password "present" [("present", "")] ∧
    (update_password "ghost" "x9" [] FileState.missing true FileState.missing).result =
      PwOpResult.saved ∧
    dictFind "ghost" (update_password "ghost" "x9" [] FileState.missing true
      FileState.missing).passwords = some "x9" := by
  decide

/-- C3 (amended): for every name not present in the store, get returns
the empty string (there is no `NotFound` value, so it cannot be
distinguished from an entry whose secret is empty), update inserts the
entry and reports success, and delete raises an uncaught `KeyError`
leaving the mapping and the file unchanged. -/
theorem missing_name_behavior (name secret : String) (pw : PwMap)
    (file failFile : FileState PwMap) (writeOk : Bool)
    (h0 : pyStrip name = name) (h1 : dictFind name pw = none)
    (h2 : pyStrip secret ≠ "") :
    retrieve_password name pw = "" ∧
    (update_password name secret pw file true failFile).result = PwOpResult.saved ∧
    dictFind name (update_password name secret pw file true failFile).passwords =
      some (pyStrip secret) ∧
    delete_password name pw file true writeOk failFile =
      ⟨PwOpResult.keyError, pw, file⟩ := by
  refine ⟨?_, ?_, ?_, delete_password_keyError_eq name pw file writeOk failFile h1⟩
  · simp [retrieve_password, dictGet, h1]
  · rw [update_password_true_eq name secret pw file failFile h2]
  · rw [update_password_true_eq name secret pw file failFile h2]
    show dictFind name (dictInsert (pyStrip name) (pyStrip secret) pw) = some (pyStrip secret)
    rw [h0]
    exact dictFind_dictInsert_self _ _ _

/-- Witness for the amended C3 at concrete inputs. -/
theorem missing_name_behavior_witness :
    retrieve_password "ghost" ([] : PwMap) = "" ∧
    (update_password "ghost" "pw1" [] FileState.missing true FileState.missing).result =
      PwOpResult.saved ∧
    dictFind "ghost" (update_password "ghost" "pw1" [] FileState.missing true
      FileState.missing).passwords = some "pw1" ∧
    delete_password "ghost" [] FileState.missing true true FileState.missing =
      ⟨PwOpResult.keyError, [], FileState.missing⟩ := by
  have h := missing_name_behavior "ghost" "pw1" [] FileState.missing FileState.missing true
    (by decide) (by decide) (by decide)
  exact h

/-- C4 counterexample: the pair `("svc", " Abc123!x ")` has non-empty
trimmed fields and the secret satisfies the default policy, yet add
followed by get returns the stripped secret, not the supplied one. -/
theorem add_get_verbatim_counterexample :
    pyStrip "svc" ≠ "" ∧ pyStrip " Abc123!x " ≠ "" ∧
    validate " Abc123!x " defaultPolicy = [] ∧
    retrieve_password "svc"
      (save_password "svc" " Abc123!x " [] FileState.missing true
        FileState.missing).passwords = "Abc123!x" ∧
    ("Abc123!x" : String) ≠ " Abc123!x " := by
  decide

/-- C4 (amended): for every pair with non-empty trimmed fields whose
secret satisfies the policy, add followed by get on the stripped name
returns the stripped secret (hence exactly the supplied secret whenever
it carries no surrounding whitespace). -/
theorem add_get_roundtrip (name secret : String) (pw : PwMap)
    (file failFile : FileState PwMap) (policy : PolicyConfig)
    (h1 : pyStrip name ≠ "") (h2 : pyStrip secret ≠ "")
    (h3 : validate secret policy = []) :
    retrieve_password (pyStrip name)
      (save_password name secret pw file true failFile).passwords = pyStrip secret := by
  rw [save_password_true_eq name secret pw file failFile h1 h2]
  simp [retrieve_password, dictGet, dictFind_dictInsert_self]

/-- Witness for the amended C4 at the spec's concrete scenario. -/
theorem add_get_roundtrip_witness :
    retrieve_password "github"
      (save_password "github" "Sup3r$ecret1" [] FileState.missing true
        FileState.missing).passwords = "Sup3r$ecret1" := by
  have h := add_get_roundtrip "github" "Sup3r$ecret1" [] FileState.missing
    FileState.missing defaultPolicy (by decide) (by decide) (by decide)
  exact h

/-- C5 counterexample: update stores the whitespace-padded secret
`" pw9A! "` stripped, so the value later returned is not
character-for-character the supplied string. -/
theorem verbatim_secret_counterexample :
    dictFind "e" (update_password "e" " pw9A! " [("e", "old")]
      (FileState.content [("e", "old")]) true FileState.missing).passwords =
      some "pw9A!" ∧
    ("pw9A!" : String) ≠ " pw9A! " := by
  decide

/-- C5 (amended): add and update store the secret after stripping
surrounding whitespace (`str.strip()`); for every secret equal to its
stripped form the value returned by get is character-for-character the
supplied string. -/
theorem secrets_stored_stripped (name secret : String) (pw : PwMap)
    (file failFile : FileState PwMap)
    (h1 : pyStrip name ≠ "") (h2 : pyStrip secret ≠ "") :
    dictFind (pyStrip name) (save_password name secret pw file true failFile).passwords =
      some (pyStrip secret) ∧
    dictFind (pyStrip name) (update_password name secret pw file true failFile).passwords =
      some (pyStrip secret) ∧
    (pyStrip secret = secret →
      retrieve_password (pyStrip name)
        (save_password name secret pw file true failFile).passwords = secret) := by
  rw [save_password_true_eq name secret pw file failFile h1 h2,
    update_password_true_eq name secret pw file failFile h2]
  refine ⟨dictFind_dictInsert_self _ _ _, dictFind_dictInsert_self _ _ _, fun hs => ?_⟩
  simp [retrieve_password, dictGet, dictFind_dictInsert_self, hs]

/-- Witness for the amended C5 at concrete inputs. -/
theorem secrets_stored_stripped_witness :
    dictFind "e" (save_password "e" "pw9A!" [] FileState.missing true
      FileState.missing).passwords = some "pw9A!" ∧
    retrieve_password "e" (save_password "e" "pw9A!" [] FileState.missing true
      FileState.missing).passwords = "pw9A!" := by
  have h := secrets_stored_stripped "e" "pw9A!" [] FileState.missing FileState.missing
    (by decide) (by decide)
  exact ⟨h.1, h.2.2 (by decide)⟩

/-- C6: for every name already present in a well-formed store, a second
add with that name succeeds (no duplicate-key error), silently replaces
the stored secret, and the store still holds at most one entry for that
name. -/
theorem save_password_overwrite (name s2 : String) (pw : PwMap)
    (file failFile : FileState PwMap)
    (h0 : (dictKeys pw).Nodup) (hmem : pyStrip name ∈ dictKeys pw)
    (h1 : pyStrip name ≠ "") (h2 : pyStrip s2 ≠ "") :
    (save_password name s2 pw file true failFile).result = PwOpResult.saved ∧
    dictFind (pyStrip name) (save_password name s2 pw file true failFile).passwords =
      some (pyStrip s2) ∧
    (dictKeys (save_password name s2 pw file true failFile).passwords).count
      (pyStrip name) ≤ 1 := by
  rw [save_password_true_eq name s2 pw file failFile h1 h2]
  refine ⟨rfl, dictFind_dictInsert_self _ _ _, ?_⟩
  exact List.nodup_iff_count_le_one.mp
    (dictKeys_nodup_dictInsert (pyStrip name) (pyStrip s2) pw h0) (pyStrip name)

/-- Witness for C6 at concrete inputs. -/
theorem save_password_overwrite_witness :
    (save_password "github" "B2pass!9" [("github", "A1")] FileState.missing true
      FileState.missing).result = PwOpResult.saved ∧
    dictFind "github" (save_password "github" "B2pass!9" [("github", "A1")]
      FileState.missing true FileState.missing).passwords = some "B2pass!9" ∧
    (dictKeys (save_password "github" "B2pass!9" [("github", "A1")]
      FileState.missing true FileState.missing).passwords).count "github" ≤ 1 := by
  have h := save_password_overwrite "github" "B2pass!9" [("github", "A1")]
    FileState.missing FileState.missing (by decide) (by decide) (by decide) (by decide)
  exact h

/-- C8 counterexample: a settings file holding only the unknown key
`"favorite_color"` yields a loaded configuration in which that key
appears — unknown keys are not ignored. -/
theorem unknown_key_counterexample :
    dictFind "favorite_color"
      (load_settings (FileState.content [("favorite_color", PyVal.pyStr "blue")])) =
      some (PyVal.pyStr "blue") := by
  decide

/-- C8 (amended): `load_settings` starts from the defaults and merges
the persisted dictionary over them: keys missing from the file keep
their default values, persisted known keys override them, and unknown
keys are carried into the loaded configuration (not ignored); a missing
or malformed file yields exactly the defaults. -/
theorem load_settings_overlay :
    load_settings FileState.missing = default_settings ∧
    load_settings FileState.malformed = default_settings ∧
    (∀ saved : SettingsMap, (dictKeys saved).Nodup → ∀ (k : String) (v : PyVal),
      dictFind k saved = some v →
      dictFind k (load_settings (FileState.content saved)) = some v) ∧
    (∀ saved : SettingsMap, (dictKeys saved).Nodup → ∀ k : String,
      dictFind k saved = none →
      dictFind k (load_settings (FileState.content saved)) =
        dictFind k default_settings) := by
  refine ⟨rfl, rfl, ?_, ?_⟩
  · intro saved h k v hk
    have hu := dictFind_dictUpdate saved default_settings h k
    rw [hk] at hu
    simpa [load_settings] using hu
  · intro saved h k hk
    have hu := dictFind_dictUpdate saved default_settings h k
    rw [hk] at hu
    simpa [load_settings] using hu

/-- Witness for the amended C8: a file setting only `min_length` leaves
`require_capital` at its default and overrides `min_length`. -/
theorem load_settings_overlay_witness :
    dictFind "require_capital"
      (load_settings (FileState.content [("min_length", PyVal.pyInt 10)])) =
      some (PyVal.pyBool true) ∧
    dictFind "min_length"
      (load_settings (FileState.content [("min_length", PyVal.pyInt 10)])) =
      some (PyVal.pyInt 10) := by
  have hc := load_settings_overlay.2.2.2 [("min_length", PyVal.pyInt 10)] (by decide)
    "require_capital" (by decide)
  have hm := load_settings_overlay.2.2.1 [("min_length", PyVal.pyInt 10)] (by decide)
    "min_length" (PyVal.pyInt 10) (by decide)
  rw [hc, hm]
  exact ⟨by decide, rfl⟩

end PasswordManager
